import Mathlib

/-!
Verification of the orientation-lock proof-of-concept page
(`src/pages/index.js`).  The file embeds, as Lean functions, the two
pieces of logic the page contains:

* the mismatch detector installed by the second `useEffect`
  (`handleDeviceOrientation`, lines 30-74 of the source), which classifies
  each tilt sample `(beta, gamma)` and raises a "rotation attempt while
  locked" alert, latched so a sustained excursion fires once; and
* the lock/unlock orchestrator `toggleLock` (lines 99-146) together with
  the permission helper `requestOrientationPermission` (lines 76-97).

Browser capabilities (fullscreen, screen-orientation, permission prompt)
are modelled as environment records carrying the outcome each capability
call would produce; calls the code issues are recorded as effects.
Tilt angles are modelled as integer degrees: the source only compares
them against the integer thresholds 50 and 180 - 50, never computes with
them.
-/

/-- Tests whether the second character list starts with the first. -/
def startsWithChars : List Char → List Char → Bool
  | [], _ => true
  | _ :: _, [] => false
  | p :: ps, c :: cs => p == c && startsWithChars ps cs

/-- Tests whether `pat` occurs as a contiguous run inside the list. -/
def containsChars (pat : List Char) : List Char → Bool
  | [] => startsWithChars pat []
  | c :: cs => startsWithChars pat (c :: cs) || containsChars pat cs

/-- Mirrors the JavaScript `String.prototype.includes` test used at
line 51 (`orientation.includes("portrait")`): true exactly when `pat`
occurs as a substring of `s`. -/
def jsIncludes (s pat : String) : Bool :=
  containsChars pat.toList s.toList

/-- Mirrors JavaScript `Math.abs` on the integer model of a number. -/
def jsAbs (x : Int) : Int :=
  if x < 0 then -x else x

/-- Sensitivity threshold in degrees, line 41 of the source. -/
def THRESHOLD : Int := 50

/-- Lines 39-48: classify a tilt sample into `"portrait"`, `"landscape"`
or `""` (ambiguous/flat).  The source assigns `currentPhysical` the same
three string values. -/
def classifyPhysical (beta gamma : Int) : String :=
  if jsAbs beta > THRESHOLD ∧ jsAbs beta < 180 - THRESHOLD then "portrait"
  else if jsAbs gamma > THRESHOLD then "landscape"
  else ""

/-- The view-state flags the detector can touch: the closure-local latch
`isAlerting` (line 34) and the React states `rotationAttempt` (the alert
banner, the spec calls it AlertState) and `isAIPopupOpen` (the popup). -/
structure DetectorState where
  isAlerting : Bool
  rotationAttempt : Bool
  isAIPopupOpen : Bool
deriving DecidableEq, Repr

/-- Lines 36-70, `handleDeviceOrientation`: process one tilt sample
against the current logical `orientation` string.  Returns the updated
state and whether an alert was emitted this sample (the branch at lines
57-63, which also schedules the 3000 ms auto-clear timeout — timers are
modelled separately in `stepTimed`). -/
def handleSample (orientation : String) (st : DetectorState) (beta gamma : Int) :
    DetectorState × Bool :=
  let currentPhysical := classifyPhysical beta gamma
  if currentPhysical ≠ "" then
    let isCurrentlyPortrait := jsIncludes orientation "portrait"
    let physicalIsPortrait := currentPhysical == "portrait"
    if isCurrentlyPortrait ≠ physicalIsPortrait then
      if st.isAlerting = false then
        ({ isAlerting := true, rotationAttempt := true, isAIPopupOpen := true }, true)
      else
        (st, false)
    else
      ({ st with isAlerting := false }, false)
  else
    (st, false)

/-- A sample whose classification is definite and disagrees with the
coarse class of the logical orientation string. -/
def disagrees (o : String) (s : Int × Int) : Prop :=
  classifyPhysical s.1 s.2 ≠ "" ∧
    jsIncludes o "portrait" ≠ (classifyPhysical s.1 s.2 == "portrait")

/-- A sample whose classification is definite and agrees with the coarse
class of the logical orientation string. -/
def agrees (o : String) (s : Int × Int) : Prop :=
  classifyPhysical s.1 s.2 ≠ "" ∧
    jsIncludes o "portrait" = (classifyPhysical s.1 s.2 == "portrait")

instance (o : String) (s : Int × Int) : Decidable (disagrees o s) := by
  unfold disagrees; infer_instance

instance (o : String) (s : Int × Int) : Decidable (agrees o s) := by
  unfold agrees; infer_instance

/-- Run the handler over a list of samples delivered within one
subscription lifetime, counting how many alerts were emitted. -/
def runSamples (o : String) (st : DetectorState) : List (Int × Int) → DetectorState × Nat
  | [] => (st, 0)
  | s :: rest =>
    let step := handleSample o st s.1 s.2
    let next := runSamples o step.1 rest
    (next.1, (if step.2 then 1 else 0) + next.2)

/-- Detector state together with the deadlines (absolute times, in
milliseconds) of the `setTimeout(() => setRotationAttempt(false), 3000)`
callbacks scheduled at line 62 that have not yet fired.  The source never
calls `clearTimeout`, so a deadline leaves the list only by firing. -/
structure TimedState where
  det : DetectorState
  timers : List Nat
deriving DecidableEq, Repr

/-- Fire every timeout whose deadline has been reached by time `t`: each
firing runs `setRotationAttempt(false)` and the callback is spent. -/
def fireDue (t : Nat) (st : TimedState) : TimedState :=
  { det :=
      if st.timers.any (fun d => d ≤ t) then
        { st.det with rotationAttempt := false }
      else st.det
  , timers := st.timers.filter (fun d => t < d) }

/-- Deliver one tilt sample `(t, beta, gamma)` at time `t`: timeouts due
by `t` fire first (the event loop runs them before later events), then
`handleSample` runs; if it emits an alert, line 62 schedules a new
auto-clear callback for `t + 3000` — appended, never replacing a pending
one. -/
def stepTimed (o : String) (st : TimedState) (ev : Nat × Int × Int) : TimedState :=
  let fired := fireDue ev.1 st
  let step := handleSample o fired.det ev.2.1 ev.2.2
  { det := step.1
  , timers := if step.2 then fired.timers ++ [ev.1 + 3000] else fired.timers }

/-- Deliver a time-ordered list of tilt samples. -/
def runTimed (o : String) (st : TimedState) (evs : List (Nat × Int × Int)) : TimedState :=
  evs.foldl (stepTimed o) st

/-- Whole-page view state relevant to alerting: the lock flag, the
permission flag, the logical orientation string, and the detector's
flags.  The second `useEffect` (line 31) bails out unless
`isLocked && isPermissionGranted`, so tilt samples reach
`handleDeviceOrientation` only when both hold. -/
structure AppState where
  isLocked : Bool
  isPermissionGranted : Bool
  orientation : String
  det : DetectorState
deriving DecidableEq, Repr

/-- Deliver one tilt sample to the page: if the lock/permission gate at
line 31 subscribed the handler, the sample is processed; otherwise no
handler is installed and the sample has no effect. -/
def processSample (st : AppState) (s : Int × Int) : AppState :=
  if st.isLocked = true ∧ st.isPermissionGranted = true then
    { st with det := (handleSample st.orientation st.det s.1 s.2).1 }
  else st

/-- Deliver a list of tilt samples to the page. -/
def processSamples (st : AppState) (samples : List (Int × Int)) : AppState :=
  samples.foldl processSample st

deriving instance DecidableEq for Except

/-- The component state `toggleLock` reads and writes: `isLocked`,
`isPermissionGranted` and the `error` message string (empty = no error
shown). -/
structure HomeState where
  isLocked : Bool
  isPermissionGranted : Bool
  error : String
deriving DecidableEq, Repr

/-- Environment for `requestOrientationPermission` (lines 76-97):
whether `DeviceOrientationEvent.requestPermission` exists as a function
(line 77), and — when it does — the outcome of awaiting it: the resolved
permission string, or a rejection. -/
structure PermEnv where
  permissionApiPresent : Bool
  permissionResult : Except String String
deriving DecidableEq, Repr

/-- Environment for the lock branch of `toggleLock` (lines 108-130):
truthiness of `document.documentElement.requestFullscreen` (line 110),
the outcome of awaiting `requestFullscreen()` (line 111), truthiness of
`screen.orientation && screen.orientation.lock` (line 114), the string
`screen.orientation.type` read at line 115, the outcome of awaiting
`screen.orientation.lock(currentType)` (line 116), and the truthiness of
`document.fullscreenElement` when the catch handler tests it
(line 127). -/
structure LockEnv where
  canRequestFullscreen : Bool
  fullscreenResult : Except String Unit
  canOrientationLock : Bool
  currentType : String
  lockResult : Except String Unit
  fullscreenElementAtCatch : Bool
deriving DecidableEq, Repr

/-- Environment for the unlock branch (lines 131-145): truthiness of
`screen.orientation && screen.orientation.unlock` (line 133), whether
the synchronous `unlock()` call throws (with its message), truthiness of
`document.fullscreenElement` (line 136), and the outcome of awaiting
`document.exitFullscreen()` (line 137). -/
structure UnlockEnv where
  canUnlock : Bool
  unlockThrows : Option String
  fullscreenElement : Bool
  exitFullscreenResult : Except String Unit
deriving DecidableEq, Repr

/-- The capability calls a `toggleLock` run issued.  `recordedReference`
is the value the assignment at line 119 would store in
`lastPhysicalOrientation.current`; it stays `none` whenever that
statement does not complete. -/
structure LockEffects where
  fullscreenRequested : Bool
  lockRequested : Bool
  lockTarget : Option String
  exitFullscreenRequested : Bool
  recordedReference : Option String
  unlockRequested : Bool
deriving DecidableEq, Repr

/-- A run that issued no capability calls. -/
def noEffects : LockEffects :=
  { fullscreenRequested := false, lockRequested := false, lockTarget := Option.none
  , exitFullscreenRequested := false, recordedReference := Option.none
  , unlockRequested := false }

/-- Lines 76-97, `requestOrientationPermission`: returns the updated
state and the boolean the function returns.  On platforms without the
permission API (line 92) the grant is unconditional. -/
def requestOrientationPermission (st : HomeState) (env : PermEnv) : HomeState × Bool :=
  if env.permissionApiPresent then
    match env.permissionResult with
    | Except.ok permission =>
        if permission = "granted" then
          ({ st with isPermissionGranted := true }, true)
        else
          ({ st with error := "Permission for rotation detection was denied." }, false)
    | Except.error _ =>
        ({ st with error := "Could not request orientation permission." }, false)
  else
    ({ st with isPermissionGranted := true }, true)

/-- Message of the `ReferenceError` raised by line 119: the statement
`lastPhysicalOrientation.current = ...` reads the identifier
`lastPhysicalOrientation`, which is declared nowhere in the module (the
comment at line 13 says the ref was removed), so evaluating it throws. -/
def referenceErrorMsg : String := "lastPhysicalOrientation is not defined"

/-- The catch handler at lines 124-130: set the error message to
`err.message || "Failed to lock orientation."` (the fallback fires on an
empty message, which is falsy) and exit fullscreen when
`document.fullscreenElement` is truthy. -/
def lockCatch (st : HomeState) (env : LockEnv) (msg : String) (eff : LockEffects) :
    HomeState × LockEffects :=
  let st := { st with error := if msg = "" then "Failed to lock orientation." else msg }
  if env.fullscreenElementAtCatch then
    (st, { eff with exitFullscreenRequested := true })
  else
    (st, eff)

/-- Lines 114-123: the orientation-lock step of the lock branch.  When
the capability is present, `screen.orientation.lock(currentType)` is
awaited; on resolution `setIsLocked(true)` runs (line 117) and then
line 119 throws the `ReferenceError` described at `referenceErrorMsg`,
landing in the catch handler; on rejection the catch handler runs with
the rejection's message.  When the capability is absent, line 122 throws
`Error("Orientation lock not supported on this browser.")`. -/
def lockAfterFullscreen (st : HomeState) (env : LockEnv) (eff : LockEffects) :
    HomeState × LockEffects :=
  if env.canOrientationLock then
    let eff := { eff with lockRequested := true, lockTarget := Option.some env.currentType }
    match env.lockResult with
    | Except.ok _ =>
        let st := { st with isLocked := true }
        lockCatch st env referenceErrorMsg eff
    | Except.error msg => lockCatch st env msg eff
  else
    lockCatch st env "Orientation lock not supported on this browser." eff

/-- Lines 108-130: the lock branch.  `requestFullscreen` is awaited
inside the same `try` as the orientation lock, so its rejection jumps
straight to the catch handler. -/
def lockBranch (st : HomeState) (env : LockEnv) : HomeState × LockEffects :=
  if env.canRequestFullscreen then
    let eff := { noEffects with fullscreenRequested := true }
    match env.fullscreenResult with
    | Except.ok _ => lockAfterFullscreen st env eff
    | Except.error msg => lockCatch st env msg eff
  else
    lockAfterFullscreen st env noEffects

/-- Lines 131-145: the unlock branch.  `unlock()` throwing skips
`setIsLocked(false)`; a rejected `exitFullscreen()` lands in the catch
handler after the flag was already cleared. -/
def unlockBranch (st : HomeState) (env : UnlockEnv) : HomeState × LockEffects :=
  if env.canUnlock then
    let eff := { noEffects with unlockRequested := true }
    match env.unlockThrows with
    | Option.some _ =>
        ({ st with error := "Failed to unlock orientation." }, eff)
    | Option.none =>
        let st := { st with isLocked := false }
        if env.fullscreenElement then
          match env.exitFullscreenResult with
          | Except.ok _ => (st, { eff with exitFullscreenRequested := true })
          | Except.error _ =>
              ({ st with error := "Failed to unlock orientation." },
               { eff with exitFullscreenRequested := true })
        else
          (st, eff)
  else
    (st, noEffects)

/-- Lines 99-146, `toggleLock`: clear the error (line 100), request the
sensor permission on the first attempt and return early when it is not
granted (lines 103-106), then run the lock branch or the unlock branch
according to `isLocked`. -/
def toggleLock (st : HomeState) (penv : PermEnv) (lenv : LockEnv) (uenv : UnlockEnv) :
    HomeState × LockEffects :=
  let st := { st with error := "" }
  let afterPerm :=
    if st.isPermissionGranted = false then requestOrientationPermission st penv
    else (st, true)
  if afterPerm.2 = false then (afterPerm.1, noEffects)
  else if afterPerm.1.isLocked = false then lockBranch afterPerm.1 lenv
  else unlockBranch afterPerm.1 uenv

example : classifyPhysical 10 80 = "landscape" := by decide
example : classifyPhysical 85 5 = "portrait" := by decide
example : classifyPhysical 0 0 = "" := by decide
example : disagrees "portrait-primary" (10, 80) := by decide
example : agrees "portrait-primary" (85, 5) := by decide
example :
    runSamples "portrait-primary" ⟨false, false, false⟩ [(10, 80), (5, 75), (7, 90)] =
      (⟨true, true, true⟩, 1) := by decide

lemma jsAbs_eq_abs (x : Int) : jsAbs x = |x| := by
  unfold jsAbs
  rcases le_or_lt 0 x with h | h
  · rw [if_neg (not_lt.mpr h), abs_of_nonneg h]
  · rw [if_pos h, abs_of_neg h]

lemma classifyPhysical_eq (b g : Int) :
    classifyPhysical b g =
      if |b| > 50 ∧ |b| < 130 then "portrait"
      else if |g| > 50 then "landscape"
      else "" := by
  simp only [classifyPhysical, jsAbs_eq_abs, THRESHOLD]
  norm_num

lemma handleSample_disagree_notAlerting {o : String} {st : DetectorState} {s : Int × Int}
    (hd : disagrees o s) (hA : st.isAlerting = false) :
    handleSample o st s.1 s.2 = (⟨true, true, true⟩, true) := by
  obtain ⟨h1, h2⟩ := hd
  simp only [handleSample]
  rw [if_pos h1, if_pos h2, if_pos hA]

lemma handleSample_disagree_alerting {o : String} {st : DetectorState} {s : Int × Int}
    (hd : disagrees o s) (hA : st.isAlerting = true) :
    handleSample o st s.1 s.2 = (st, false) := by
  obtain ⟨h1, h2⟩ := hd
  simp only [handleSample]
  rw [if_pos h1, if_pos h2, if_neg (by simp [hA])]

lemma handleSample_agree {o : String} {st : DetectorState} {s : Int × Int}
    (ha : agrees o s) :
    handleSample o st s.1 s.2 = ({ st with isAlerting := false }, false) := by
  obtain ⟨h1, h2⟩ := ha
  simp only [handleSample]
  rw [if_pos h1, if_neg (by simp [h2])]

lemma runSamples_alerting_all_disagree {o : String} {st : DetectorState}
    {samples : List (Int × Int)} (hA : st.isAlerting = true)
    (hall : ∀ s ∈ samples, disagrees o s) :
    runSamples o st samples = (st, 0) := by
  induction samples with
  | nil => rfl
  | cons s rest ih =>
    have hs := handleSample_disagree_alerting (hall s (List.mem_cons_self s rest)) hA
    simp [runSamples, hs, ih fun x hx => hall x (List.mem_cons_of_mem s hx)]

/-- C6: a tilt sample is classified portrait exactly when
`|beta| > 50 ∧ |beta| < 130`, otherwise landscape exactly when
`|gamma| > 50`, otherwise not at all — and an unclassified sample leaves
the detector state untouched and emits nothing. -/
theorem classification_spec (beta gamma : Int) :
    (classifyPhysical beta gamma = "portrait" ↔ (|beta| > 50 ∧ |beta| < 130)) ∧
    (classifyPhysical beta gamma = "landscape" ↔
      (¬(|beta| > 50 ∧ |beta| < 130) ∧ |gamma| > 50)) ∧
    (classifyPhysical beta gamma = "" →
      ∀ (o : String) (st : DetectorState),
        handleSample o st beta gamma = (st, false)) := by
  rw [classifyPhysical_eq]
  refine ⟨?_, ?_, ?_⟩
  · split_ifs with h1 h2
    · simp [h1]
    · exact ⟨fun he => absurd he (by decide), fun hc => absurd hc h1⟩
    · exact ⟨fun he => absurd he (by decide), fun hc => absurd hc h1⟩
  · split_ifs with h1 h2
    · exact ⟨fun he => absurd he (by decide), fun hc => absurd h1 hc.1⟩
    · simp [h1, h2]
    · exact ⟨fun he => absurd he (by decide), fun hc => absurd hc.2 h2⟩
  · intro hnone o st
    have hcl : classifyPhysical beta gamma = "" := by rw [classifyPhysical_eq]; exact hnone
    simp only [handleSample, hcl]
    rw [if_neg (by simp)]

/-- Closed instance of the claim-C6 theorem at the flat sample `(0, 0)`,
which is unclassified and therefore leaves the detector untouched. -/
theorem classification_spec_witness :
    classifyPhysical 0 0 = "" ∧
    handleSample "portrait-primary" ⟨false, false, false⟩ 0 0 =
      (⟨false, false, false⟩, false) :=
  ⟨by decide,
   (classification_spec 0 0).2.2 (by decide) "portrait-primary" ⟨false, false, false⟩⟩

/-- C7: within one subscription lifetime, a nonempty run of consecutive
samples that all disagree with the logical orientation's coarse class
emits exactly one alert (the latch suppresses repeats), ending with the
alert banner and popup flags set. -/
theorem sustainedExcursion_oneAlert (o : String) (st : DetectorState)
    (samples : List (Int × Int)) (hA : st.isAlerting = false)
    (hne : samples ≠ []) (hall : ∀ s ∈ samples, disagrees o s) :
    (runSamples o st samples).2 = 1 ∧
    (runSamples o st samples).1.rotationAttempt = true ∧
    (runSamples o st samples).1.isAIPopupOpen = true := by
  cases samples with
  | nil => exact absurd rfl hne
  | cons s rest =>
    have hs := handleSample_disagree_notAlerting (hall s (List.mem_cons_self s rest)) hA
    have hrest : runSamples o ⟨true, true, true⟩ rest = (⟨true, true, true⟩, 0) :=
      runSamples_alerting_all_disagree rfl fun x hx => hall x (List.mem_cons_of_mem s hx)
    simp [runSamples, hs, hrest]

/-- Closed instance of the claim-C7 theorem: three consecutive
landscape-leaning samples under a portrait lock yield one alert. -/
theorem sustainedExcursion_oneAlert_witness :
    (runSamples "portrait-primary" ⟨false, false, false⟩ [(10, 80), (5, 75), (7, 90)]).2 = 1 ∧
    (runSamples "portrait-primary" ⟨false, false, false⟩
        [(10, 80), (5, 75), (7, 90)]).1.rotationAttempt = true ∧
    (runSamples "portrait-primary" ⟨false, false, false⟩
        [(10, 80), (5, 75), (7, 90)]).1.isAIPopupOpen = true :=
  sustainedExcursion_oneAlert "portrait-primary" ⟨false, false, false⟩
    [(10, 80), (5, 75), (7, 90)] (by decide) (by decide) (by decide)

/-- C8: after an alert (latch set), one agreeing sample clears the latch
without touching the alert banner or popup flags and emits nothing, and
a subsequent disagreeing sample fires a second alert. -/
theorem reagreement_rearms (o : String) (st : DetectorState) (a d : Int × Int)
    (hA : st.isAlerting = true) (ha : agrees o a) (hd : disagrees o d) :
    (handleSample o st a.1 a.2).1.isAlerting = false ∧
    (handleSample o st a.1 a.2).1.rotationAttempt = st.rotationAttempt ∧
    (handleSample o st a.1 a.2).1.isAIPopupOpen = st.isAIPopupOpen ∧
    (handleSample o st a.1 a.2).2 = false ∧
    (handleSample o (handleSample o st a.1 a.2).1 d.1 d.2).2 = true := by
  rw [handleSample_agree ha]
  refine ⟨rfl, rfl, rfl, rfl, ?_⟩
  rw [handleSample_disagree_notAlerting hd rfl]

/-- Closed instance of the claim-C8 theorem: under a portrait lock, after
an alert, the agreeing sample `(85, 5)` re-arms and the disagreeing
sample `(5, 75)` fires again. -/
theorem reagreement_rearms_witness :
    (handleSample "portrait-primary" ⟨true, true, true⟩ 85 5).1.isAlerting = false ∧
    (handleSample "portrait-primary" ⟨true, true, true⟩ 85 5).1.rotationAttempt =
      DetectorState.rotationAttempt ⟨true, true, true⟩ ∧
    (handleSample "portrait-primary" ⟨true, true, true⟩ 85 5).1.isAIPopupOpen =
      DetectorState.isAIPopupOpen ⟨true, true, true⟩ ∧
    (handleSample "portrait-primary" ⟨true, true, true⟩ 85 5).2 = false ∧
    (handleSample "portrait-primary"
      (handleSample "portrait-primary" ⟨true, true, true⟩ 85 5).1 5 75).2 = true :=
  reagreement_rearms "portrait-primary" ⟨true, true, true⟩ (85, 5) (5, 75)
    (by decide) (by decide) (by decide)

/-- C9: while the page is not locked (or the sensor permission is not
granted), the tilt handler is not subscribed, so any sequence of tilt
samples leaves the whole view state — in particular the alert flag —
unchanged; alerts can only arise while locked and permitted. -/
theorem noAlert_whenUnlocked (st : AppState) (samples : List (Int × Int))
    (h : st.isLocked = false ∨ st.isPermissionGranted = false) :
    processSamples st samples = st := by
  have hstep : ∀ s, processSample st s = st := by
    intro s
    unfold processSample
    rw [if_neg]
    rintro ⟨h1, h2⟩
    rcases h with h | h
    · rw [h1] at h; exact Bool.noConfusion h
    · rw [h2] at h; exact Bool.noConfusion h
  induction samples with
  | nil => rfl
  | cons s rest ih =>
    show processSamples (processSample st s) rest = st
    rw [hstep s]
    exact ih

/-- Closed instance of the claim-C9 theorem: an unlocked page ignores a
landscape-leaning tilt sample entirely. -/
theorem noAlert_whenUnlocked_witness :
    processSamples ⟨false, true, "portrait-primary", ⟨false, false, false⟩⟩ [(10, 80)] =
      ⟨false, true, "portrait-primary", ⟨false, false, false⟩⟩ :=
  noAlert_whenUnlocked ⟨false, true, "portrait-primary", ⟨false, false, false⟩⟩
    [(10, 80)] (Or.inl rfl)

/-- The claim that at most one auto-clear timeout is pending fails: this
run fires an alert at t=0, re-agrees at t=1000, and fires a second alert
at t=2000, leaving the deadlines 3000 and 5000 both pending; delivering a
flat sample at t=3000 then shows the first timeout clearing the banner of
the second alert only 1000 ms after it fired, not after its full
3000 ms. -/
theorem timer_stacking_counterexample :
    (runTimed "portrait-primary" ⟨⟨false, false, false⟩, []⟩
        [(0, 10, 80), (1000, 85, 5), (2000, 5, 75)]).timers = [3000, 5000] ∧
    (runTimed "portrait-primary" ⟨⟨false, false, false⟩, []⟩
        [(0, 10, 80), (1000, 85, 5), (2000, 5, 75), (3000, 0, 0)]).det.rotationAttempt
      = false ∧
    (runTimed "portrait-primary" ⟨⟨false, false, false⟩, []⟩
        [(0, 10, 80), (1000, 85, 5), (2000, 5, 75), (3000, 0, 0)]).timers = [5000] := by
  decide

/-- C10 (amended): `clearTimeout` is never called, so when an alert fires
at time `t` while an earlier auto-clear deadline `d > t` is still
pending, the old deadline stays outstanding alongside the newly scheduled
`t + 3000` — the timers stack instead of being reset. -/
theorem newAlert_keeps_pending_timer (o : String) (st : TimedState) (t : Nat)
    (beta gamma : Int) (d : Nat) (hd : d ∈ st.timers) (hlt : t < d)
    (hfire : (handleSample o (fireDue t st).det beta gamma).2 = true) :
    d ∈ (stepTimed o st (t, beta, gamma)).timers ∧
    (t + 3000) ∈ (stepTimed o st (t, beta, gamma)).timers := by
  have h1 : stepTimed o st (t, beta, gamma) =
      { det := (handleSample o (fireDue t st).det beta gamma).1
      , timers := (fireDue t st).timers ++ [t + 3000] } := by
    unfold stepTimed
    simp [hfire]
  rw [h1]
  constructor
  · exact List.mem_append_left _ (List.mem_filter.mpr ⟨hd, by simpa using hlt⟩)
  · exact List.mem_append_right _ (List.mem_singleton.mpr rfl)

/-- Closed instance of the amended claim-C10 theorem: an alert at t=2000
with the deadline 3000 still pending leaves both 3000 and 5000
outstanding. -/
theorem newAlert_keeps_pending_timer_witness :
    3000 ∈ (stepTimed "portrait-primary" ⟨⟨false, false, false⟩, [3000]⟩
      (2000, 5, 75)).timers ∧
    (2000 + 3000) ∈ (stepTimed "portrait-primary" ⟨⟨false, false, false⟩, [3000]⟩
      (2000, 5, 75)).timers :=
  newAlert_keeps_pending_timer "portrait-primary" ⟨⟨false, false, false⟩, [3000]⟩
    2000 5 75 3000 (by decide) (by decide) (by decide)

/-- A page with the permission already granted, not yet locked. -/
def stReady : HomeState := { isLocked := false, isPermissionGranted := true, error := "" }

/-- A platform without the iOS-style permission prompt (line 92): the
grant is unconditional, so this environment is irrelevant to runs that
start with the permission already granted. -/
def permAbsent : PermEnv :=
  { permissionApiPresent := false, permissionResult := Except.ok "granted" }

/-- An unlock environment; irrelevant to runs that take the lock
branch. -/
def uenvAny : UnlockEnv :=
  { canUnlock := true, unlockThrows := Option.none, fullscreenElement := false
  , exitFullscreenResult := Except.ok () }

/-- Scenario E environment: `requestFullscreen` exists but rejects, while
the orientation lock would succeed if it were reached. -/
def fsRejectEnv : LockEnv :=
  { canRequestFullscreen := true, fullscreenResult := Except.error "Fullscreen request denied."
  , canOrientationLock := true, currentType := "portrait-primary"
  , lockResult := Except.ok (), fullscreenElementAtCatch := false }

/-- A fully successful environment: fullscreen and the portrait
orientation lock both resolve. -/
def lockOkEnv : LockEnv :=
  { canRequestFullscreen := true, fullscreenResult := Except.ok ()
  , canOrientationLock := true, currentType := "portrait-primary"
  , lockResult := Except.ok (), fullscreenElementAtCatch := true }

lemma lockCatch_isLocked (st : HomeState) (env : LockEnv) (msg : String)
    (eff : LockEffects) : (lockCatch st env msg eff).1.isLocked = st.isLocked := by
  unfold lockCatch
  split_ifs <;> rfl

lemma lockCatch_lockRequested (st : HomeState) (env : LockEnv) (msg : String)
    (eff : LockEffects) :
    (lockCatch st env msg eff).2.lockRequested = eff.lockRequested := by
  unfold lockCatch
  split_ifs <;> rfl

lemma lockCatch_recordedReference (st : HomeState) (env : LockEnv) (msg : String)
    (eff : LockEffects) :
    (lockCatch st env msg eff).2.recordedReference = eff.recordedReference := by
  unfold lockCatch
  split_ifs <;> rfl

lemma lockCatch_error (st : HomeState) (env : LockEnv) (msg : String)
    (eff : LockEffects) (h : msg ≠ "") : (lockCatch st env msg eff).1.error = msg := by
  unfold lockCatch
  rw [if_neg h]
  split_ifs <;> rfl

lemma requestOrientationPermission_isLocked (st : HomeState) (env : PermEnv) :
    (requestOrientationPermission st env).1.isLocked = st.isLocked := by
  unfold requestOrientationPermission
  split_ifs
  · cases env.permissionResult with
    | ok p => by_cases hp : p = "granted" <;> simp [hp]
    | error m => rfl
  · rfl

lemma lockAfterFullscreen_locked_only_if (st : HomeState) (env : LockEnv)
    (eff : LockEffects) (h : st.isLocked = false) :
    (lockAfterFullscreen st env eff).1.isLocked = true →
    env.canOrientationLock = true ∧ env.lockResult = Except.ok () ∧
      (lockAfterFullscreen st env eff).2.lockRequested = true := by
  unfold lockAfterFullscreen
  split_ifs with hc
  · cases hres : env.lockResult with
    | ok u =>
      cases u
      intro _
      exact ⟨hc, rfl, by rw [lockCatch_lockRequested]⟩
    | error m =>
      rw [lockCatch_isLocked, h]
      intro hfalse
      exact absurd hfalse (by decide)
  · rw [lockCatch_isLocked, h]
    intro hfalse
    exact absurd hfalse (by decide)

lemma lockBranch_locked_only_if (st : HomeState) (env : LockEnv)
    (h : st.isLocked = false) :
    (lockBranch st env).1.isLocked = true →
    env.canOrientationLock = true ∧ env.lockResult = Except.ok () ∧
      (lockBranch st env).2.lockRequested = true := by
  unfold lockBranch
  split_ifs with hc
  · cases hres : env.fullscreenResult with
    | ok u =>
      cases u
      exact lockAfterFullscreen_locked_only_if st env _ h
    | error m =>
      rw [lockCatch_isLocked, h]
      intro hfalse
      exact absurd hfalse (by decide)
  · exact lockAfterFullscreen_locked_only_if st env _ h

lemma lockCatch_exitFullscreen (st : HomeState) (env : LockEnv) (msg : String)
    (eff : LockEffects) (h : env.fullscreenElementAtCatch = true) :
    (lockCatch st env msg eff).2.exitFullscreenRequested = true := by
  unfold lockCatch
  simp [h]

lemma lockAfterFullscreen_ok (st : HomeState) (lenv : LockEnv) (eff : LockEffects)
    (hcan : lenv.canOrientationLock = true) (hres : lenv.lockResult = Except.ok ()) :
    lockAfterFullscreen st lenv eff =
      lockCatch { st with isLocked := true } lenv referenceErrorMsg
        { eff with lockRequested := true, lockTarget := Option.some lenv.currentType } := by
  unfold lockAfterFullscreen
  simp [hcan, hres]

lemma toggleLock_perm_lock (st : HomeState) (penv : PermEnv) (lenv : LockEnv)
    (uenv : UnlockEnv) (hperm : st.isPermissionGranted = true)
    (hlock : st.isLocked = false) :
    toggleLock st penv lenv uenv = lockBranch { st with error := "" } lenv := by
  unfold toggleLock
  simp [hperm, hlock]

lemma toggleLock_noperm (st : HomeState) (penv : PermEnv) (lenv : LockEnv)
    (uenv : UnlockEnv) (hperm : st.isPermissionGranted = false)
    (hlock : st.isLocked = false) :
    toggleLock st penv lenv uenv =
      (if (requestOrientationPermission { st with error := "" } penv).2 = false
       then ((requestOrientationPermission { st with error := "" } penv).1, noEffects)
       else lockBranch (requestOrientationPermission { st with error := "" } penv).1 lenv) := by
  unfold toggleLock
  simp [hperm, requestOrientationPermission_isLocked, hlock]

/-- The claim that a failing fullscreen request is ignored fails: with
`requestFullscreen` rejecting and an orientation lock that would succeed,
`toggleLock` runs its catch handler instead — the lock call is never
issued, the page stays unlocked and the fullscreen failure's message is
shown to the user. -/
theorem fullscreen_bestEffort_counterexample :
    (toggleLock stReady permAbsent fsRejectEnv uenvAny).2.lockRequested = false ∧
    (toggleLock stReady permAbsent fsRejectEnv uenvAny).1.isLocked = false ∧
    (toggleLock stReady permAbsent fsRejectEnv uenvAny).1.error =
      "Fullscreen request denied." := by
  decide

/-- C1 (amended): `requestFullscreen` is awaited inside the same `try` as
the orientation lock, so when it rejects (with a nonempty message) the
lock operation aborts: no orientation-lock request is issued, LockState
stays UNLOCKED, and the fullscreen failure is surfaced as the
user-visible error. -/
theorem fullscreenFailure_aborts_lock (st : HomeState) (penv : PermEnv) (lenv : LockEnv)
    (uenv : UnlockEnv) (msg : String)
    (hlock : st.isLocked = false) (hperm : st.isPermissionGranted = true)
    (hcan : lenv.canRequestFullscreen = true)
    (hres : lenv.fullscreenResult = Except.error msg) (hmsg : msg ≠ "") :
    (toggleLock st penv lenv uenv).1.isLocked = false ∧
    (toggleLock st penv lenv uenv).1.error = msg ∧
    (toggleLock st penv lenv uenv).2.lockRequested = false := by
  rw [toggleLock_perm_lock st penv lenv uenv hperm hlock]
  have hb : lockBranch { st with error := "" } lenv =
      lockCatch { st with error := "" } lenv msg
        { noEffects with fullscreenRequested := true } := by
    unfold lockBranch
    simp [hcan, hres]
  rw [hb]
  exact ⟨by rw [lockCatch_isLocked]; exact hlock, lockCatch_error _ _ _ _ hmsg,
    by rw [lockCatch_lockRequested]; rfl⟩

/-- Closed instance of the amended claim-C1 theorem in the Scenario E
environment. -/
theorem fullscreenFailure_aborts_lock_witness :
    (toggleLock stReady permAbsent fsRejectEnv uenvAny).1.isLocked = false ∧
    (toggleLock stReady permAbsent fsRejectEnv uenvAny).1.error =
      "Fullscreen request denied." ∧
    (toggleLock stReady permAbsent fsRejectEnv uenvAny).2.lockRequested = false :=
  fullscreenFailure_aborts_lock stReady permAbsent fsRejectEnv uenvAny
    "Fullscreen request denied." (by decide) (by decide) (by decide) (by decide)
    (by decide)

/-- C2: whenever the orientation-lock call resolves (with fullscreen
either absent or resolving), `setIsLocked(true)` runs and then line 119
dereferences the undeclared `lastPhysicalOrientation`, so the run ends in
the catch handler: the page is LOCKED yet the ReferenceError message is
surfaced, nothing was recorded by the failed assignment, and fullscreen
is exited whenever `document.fullscreenElement` is truthy. -/
theorem successfulLock_throwsReferenceError (st : HomeState) (penv : PermEnv)
    (lenv : LockEnv) (uenv : UnlockEnv)
    (hlock : st.isLocked = false) (hperm : st.isPermissionGranted = true)
    (hfs : lenv.canRequestFullscreen = true → lenv.fullscreenResult = Except.ok ())
    (hcan : lenv.canOrientationLock = true) (hres : lenv.lockResult = Except.ok ()) :
    (toggleLock st penv lenv uenv).1.isLocked = true ∧
    (toggleLock st penv lenv uenv).1.error = referenceErrorMsg ∧
    (toggleLock st penv lenv uenv).2.recordedReference = Option.none ∧
    (lenv.fullscreenElementAtCatch = true →
      (toggleLock st penv lenv uenv).2.exitFullscreenRequested = true) := by
  rw [toggleLock_perm_lock st penv lenv uenv hperm hlock]
  cases hcf : lenv.canRequestFullscreen with
  | true =>
    have hb : lockBranch { st with error := "" } lenv =
        lockAfterFullscreen { st with error := "" } lenv
          { noEffects with fullscreenRequested := true } := by
      unfold lockBranch
      simp [hcf, hfs hcf]
    rw [hb, lockAfterFullscreen_ok _ _ _ hcan hres]
    exact ⟨by rw [lockCatch_isLocked], lockCatch_error _ _ _ _ (by decide),
      by rw [lockCatch_recordedReference]; rfl,
      fun hfe => lockCatch_exitFullscreen _ _ _ _ hfe⟩
  | false =>
    have hb : lockBranch { st with error := "" } lenv =
        lockAfterFullscreen { st with error := "" } lenv noEffects := by
      unfold lockBranch
      simp [hcf]
    rw [hb, lockAfterFullscreen_ok _ _ _ hcan hres]
    exact ⟨by rw [lockCatch_isLocked], lockCatch_error _ _ _ _ (by decide),
      by rw [lockCatch_recordedReference]; rfl,
      fun hfe => lockCatch_exitFullscreen _ _ _ _ hfe⟩

/-- Closed instance of the claim-C2 theorem: a fully successful portrait
lock still ends with the ReferenceError surfaced and fullscreen
exited. -/
theorem successfulLock_throwsReferenceError_witness :
    (toggleLock stReady permAbsent lockOkEnv uenvAny).1.isLocked = true ∧
    (toggleLock stReady permAbsent lockOkEnv uenvAny).1.error = referenceErrorMsg ∧
    (toggleLock stReady permAbsent lockOkEnv uenvAny).2.recordedReference =
      Option.none ∧
    (lockOkEnv.fullscreenElementAtCatch = true →
      (toggleLock stReady permAbsent lockOkEnv uenvAny).2.exitFullscreenRequested =
        true) :=
  successfulLock_throwsReferenceError stReady permAbsent lockOkEnv uenvAny
    (by decide) (by decide) (fun _ => by decide) (by decide) (by decide)

/-- The lock operation at the bug's failing input: permission granted,
fullscreen resolves, `screen.orientation.type = "portrait-primary"`, and
the orientation lock resolves.  The claim (and the source's own comments
at lines 13 and 118) expect the locked orientation's coarse class to be
recorded and the lock to finish cleanly; instead line 119 throws, so the
page is LOCKED with the lock correctly targeted at portrait, yet nothing
is recorded, an error is surfaced, and fullscreen is exited. -/
theorem lockSuccess_recordsNothing :
    (toggleLock stReady permAbsent lockOkEnv uenvAny).1.isLocked = true ∧
    (toggleLock stReady permAbsent lockOkEnv uenvAny).2.lockTarget =
      Option.some "portrait-primary" ∧
    (toggleLock stReady permAbsent lockOkEnv uenvAny).2.recordedReference =
      Option.none ∧
    (toggleLock stReady permAbsent lockOkEnv uenvAny).1.error = referenceErrorMsg ∧
    (toggleLock stReady permAbsent lockOkEnv uenvAny).2.exitFullscreenRequested =
      true := by
  decide

/-- C4: starting unlocked, `toggleLock` ends LOCKED only when the
orientation-lock capability is present and its call resolved — and in
that case the lock call was indeed issued.  No fullscreen, permission or
lock failure path reaches `setIsLocked(true)`. -/
theorem locked_only_if_lockResolved (st : HomeState) (penv : PermEnv) (lenv : LockEnv)
    (uenv : UnlockEnv) (hlock : st.isLocked = false) :
    (toggleLock st penv lenv uenv).1.isLocked = true →
    lenv.canOrientationLock = true ∧ lenv.lockResult = Except.ok () ∧
      (toggleLock st penv lenv uenv).2.lockRequested = true := by
  cases hperm : st.isPermissionGranted with
  | true =>
    rw [toggleLock_perm_lock st penv lenv uenv hperm hlock]
    exact lockBranch_locked_only_if _ _ hlock
  | false =>
    rw [toggleLock_noperm st penv lenv uenv hperm hlock]
    by_cases hg : (requestOrientationPermission { st with error := "" } penv).2 = false
    · rw [if_pos hg]
      intro habs
      rw [requestOrientationPermission_isLocked] at habs
      have habs2 : st.isLocked = true := habs
      rw [hlock] at habs2
      exact Bool.noConfusion habs2
    · rw [if_neg hg]
      exact lockBranch_locked_only_if _ _
        (by rw [requestOrientationPermission_isLocked]; exact hlock)

/-- Closed instance of the claim-C4 theorem in the fully successful
environment, where the antecedent holds. -/
theorem locked_only_if_lockResolved_witness :
    lockOkEnv.canOrientationLock = true ∧ lockOkEnv.lockResult = Except.ok () ∧
      (toggleLock stReady permAbsent lockOkEnv uenvAny).2.lockRequested = true :=
  locked_only_if_lockResolved stReady permAbsent lockOkEnv uenvAny (by decide)
    (by decide)

/-- C5: when the permission prompt resolves to anything but "granted",
`toggleLock` returns at line 105: the denial message is surfaced, the
page stays unlocked and unpermitted, and no capability call — fullscreen,
lock or otherwise — is issued. -/
theorem permissionDenied_aborts (st : HomeState) (penv : PermEnv) (lenv : LockEnv)
    (uenv : UnlockEnv) (p : String)
    (hlock : st.isLocked = false) (hperm : st.isPermissionGranted = false)
    (hapi : penv.permissionApiPresent = true)
    (hres : penv.permissionResult = Except.ok p) (hp : p ≠ "granted") :
    (toggleLock st penv lenv uenv).1.isLocked = false ∧
    (toggleLock st penv lenv uenv).1.isPermissionGranted = false ∧
    (toggleLock st penv lenv uenv).1.error =
      "Permission for rotation detection was denied." ∧
    (toggleLock st penv lenv uenv).2 = noEffects := by
  have hr : requestOrientationPermission { st with error := "" } penv =
      ({ st with error := "Permission for rotation detection was denied." }, false) := by
    unfold requestOrientationPermission
    simp [hapi, hres, hp]
  rw [toggleLock_noperm st penv lenv uenv hperm hlock, hr]
  exact ⟨hlock, hperm, rfl, rfl⟩

/-- Closed instance of the claim-C5 theorem: a fresh page whose
permission prompt resolves to "denied". -/
theorem permissionDenied_aborts_witness :
    (toggleLock ⟨false, false, ""⟩ ⟨true, Except.ok "denied"⟩ lockOkEnv
      uenvAny).1.isLocked = false ∧
    (toggleLock ⟨false, false, ""⟩ ⟨true, Except.ok "denied"⟩ lockOkEnv
      uenvAny).1.isPermissionGranted = false ∧
    (toggleLock ⟨false, false, ""⟩ ⟨true, Except.ok "denied"⟩ lockOkEnv
      uenvAny).1.error = "Permission for rotation detection was denied." ∧
    (toggleLock ⟨false, false, ""⟩ ⟨true, Except.ok "denied"⟩ lockOkEnv
      uenvAny).2 = noEffects :=
  permissionDenied_aborts ⟨false, false, ""⟩ ⟨true, Except.ok "denied"⟩ lockOkEnv
    uenvAny "denied" (by decide) (by decide) (by decide) (by decide) (by decide)
